import Mathlib

/-!
Shallow embedding of `src/ga_api.py` (`class GoogleAnalytics`): daily batching
of Google Analytics reporting queries, pagination of one day's rows, sampling
detection, and type coercion of the resulting table.

The Python `datetime` arithmetic used by `batch_get` (lines 217-222) operates
on the proleptic Gregorian calendar; it is embedded below as an explicit
year/month/day structure with the standard civil-calendar day number.
-/

namespace GaApi

/-- Calendar date as Python `datetime.date` represents it (proleptic Gregorian
year/month/day).  Python restricts years to 1..9999; the arithmetic below only
needs `year ≥ 1`. -/
structure PyDate where
  year : Nat
  month : Nat
  day : Nat
deriving DecidableEq, Repr

/-- Gregorian leap-year rule (Python `calendar.isleap`). -/
def isLeap (y : Nat) : Bool :=
  y % 4 == 0 && (y % 100 != 0 || y % 400 == 0)

/-- Number of days in a month of the proleptic Gregorian calendar. -/
def daysInMonth (y m : Nat) : Nat :=
  if m = 2 then (if isLeap y then 29 else 28)
  else if m = 4 ∨ m = 6 ∨ m = 9 ∨ m = 11 then 30
  else 31

/-- A structurally valid Gregorian date with a positive year. -/
def ValidDate (dt : PyDate) : Prop :=
  1 ≤ dt.year ∧ 1 ≤ dt.month ∧ dt.month ≤ 12 ∧ 1 ≤ dt.day ∧
    dt.day ≤ daysInMonth dt.year dt.month

instance (dt : PyDate) : Decidable (ValidDate dt) := by
  unfold ValidDate; exact inferInstance

theorem validDate_mk (y m d : Nat) :
    ValidDate ⟨y, m, d⟩ ↔
      1 ≤ y ∧ 1 ≤ m ∧ m ≤ 12 ∧ 1 ≤ d ∧ d ≤ daysInMonth y m :=
  Iff.rfl

/-- "March-based" year: January and February count with the preceding year.
Standard device of the civil-calendar day-number formula. -/
def myYMD (y m : Nat) : Nat :=
  if m ≤ 2 then y - 1 else y

/-- Month shifted so that March is 0 and February is 11. -/
def mpYMD (m : Nat) : Nat :=
  if m ≤ 2 then m + 9 else m - 3

/-- Day number of March 1 of March-based year `y`, counted from 0000-03-01. -/
def yearStart (y : Nat) : Nat :=
  (y / 400) * 146097 + (y % 400) * 365 + (y % 400) / 4 - (y % 400) / 100

/-- Zero-based day within the March-based year. -/
def doyYMD (m d : Nat) : Nat :=
  (153 * mpYMD m + 2) / 5 + d - 1

/-- Civil day number of year/month/day, counted from 0000-03-01. -/
def toOrdYMD (y m d : Nat) : Nat :=
  yearStart (myYMD y m) + doyYMD m d

/-- Day number of a date.  This is the ordinal underlying Python
`datetime.date.toordinal` (shifted by a constant); date subtraction
(`timedelta.days`) is the difference of these ordinals. -/
def toOrd (dt : PyDate) : Nat :=
  toOrdYMD dt.year dt.month dt.day

/-- Calendar successor of year/month/day. -/
def nextDateYMD (y m d : Nat) : PyDate :=
  if d < daysInMonth y m then ⟨y, m, d + 1⟩
  else if m < 12 then ⟨y, m + 1, 1⟩
  else ⟨y + 1, 1, 1⟩

/-- The next calendar day: the embedding of Python `date + timedelta(1)`. -/
def nextDate (dt : PyDate) : PyDate :=
  nextDateYMD dt.year dt.month dt.day

/-- `date + timedelta(k)` as the `k`-fold calendar successor. -/
def addDays (dt : PyDate) : Nat → PyDate
  | 0 => dt
  | k + 1 => addDays (nextDate dt) k

/-- March-based year lengths: moving from March 1 of year `y-1` to March 1 of
year `y` crosses February of civil year `y`. -/
theorem yearStart_succ (y : Nat) (hy : 1 ≤ y) :
    yearStart y = yearStart (y - 1) + (if isLeap y then 366 else 365) := by
  by_cases hl : isLeap y
  · simp only [if_pos hl]
    simp only [isLeap, Bool.and_eq_true, beq_iff_eq, Bool.or_eq_true,
      bne_iff_ne] at hl
    unfold yearStart
    obtain ⟨h4, h100 | h400⟩ := hl
    · omega
    · omega
  · simp only [if_neg hl]
    simp only [isLeap, Bool.and_eq_true, beq_iff_eq, Bool.or_eq_true,
      bne_iff_ne] at hl
    unfold yearStart
    by_cases h4 : y % 4 = 0
    · have h2 : ¬(y % 100 ≠ 0 ∨ y % 400 = 0) := fun h => hl ⟨h4, h⟩
      push_neg at h2
      omega
    · omega

theorem toOrd_step_day (y m d : Nat) (hd : 1 ≤ d) :
    toOrdYMD y m (d + 1) = toOrdYMD y m d + 1 := by
  unfold toOrdYMD doyYMD
  omega

theorem toOrd_step_month (y m : Nat) (hm1 : 1 ≤ m) (hm12 : m < 12)
    (hm2 : m ≠ 2) :
    toOrdYMD y (m + 1) 1 = toOrdYMD y m (daysInMonth y m) + 1 := by
  unfold toOrdYMD doyYMD mpYMD myYMD daysInMonth
  interval_cases m <;> simp_all

theorem toOrd_step_feb (y : Nat) (hy : 1 ≤ y) :
    toOrdYMD y 3 1 = toOrdYMD y 2 (daysInMonth y 2) + 1 := by
  unfold toOrdYMD doyYMD mpYMD myYMD daysInMonth
  norm_num
  rw [yearStart_succ y hy]
  rcases Bool.eq_false_or_eq_true (isLeap y) with hl | hl <;>
    rw [hl] <;> simp

theorem toOrd_step_year (y : Nat) :
    toOrdYMD (y + 1) 1 1 = toOrdYMD y 12 31 + 1 := by
  unfold toOrdYMD doyYMD mpYMD myYMD
  norm_num

/-- The civil day number increases by exactly one under the calendar
successor. -/
theorem toOrd_nextDate (dt : PyDate) (h : ValidDate dt) :
    toOrd (nextDate dt) = toOrd dt + 1 := by
  obtain ⟨y, m, d⟩ := dt
  rw [validDate_mk] at h
  obtain ⟨hy, hm1, hm12, hd1, hd2⟩ := h
  show toOrd (nextDateYMD y m d) = toOrdYMD y m d + 1
  unfold nextDateYMD
  by_cases hlt : d < daysInMonth y m
  · rw [if_pos hlt]
    show toOrdYMD y m (d + 1) = toOrdYMD y m d + 1
    exact toOrd_step_day y m d hd1
  · rw [if_neg hlt]
    have hdim : d = daysInMonth y m := by omega
    by_cases hm12' : m < 12
    · rw [if_pos hm12']
      show toOrdYMD y (m + 1) 1 = toOrdYMD y m d + 1
      subst hdim
      by_cases hm2 : m = 2
      · subst hm2; exact toOrd_step_feb y hy
      · exact toOrd_step_month y m hm1 hm12' hm2
    · rw [if_neg hm12']
      have hm : m = 12 := by omega
      subst hm
      have h31 : d = 31 := by
        simp only [daysInMonth] at hdim; norm_num at hdim; omega
      subst h31
      show toOrdYMD (y + 1) 1 1 = toOrdYMD y 12 31 + 1
      exact toOrd_step_year y

theorem daysInMonth_pos (y m : Nat) : 1 ≤ daysInMonth y m := by
  unfold daysInMonth
  split
  · split <;> omega
  · split <;> omega

/-- The calendar successor of a valid date is valid. -/
theorem validDate_nextDate (dt : PyDate) (h : ValidDate dt) :
    ValidDate (nextDate dt) := by
  obtain ⟨y, m, d⟩ := dt
  rw [validDate_mk] at h
  obtain ⟨hy, hm1, hm12, hd1, hd2⟩ := h
  show ValidDate (nextDateYMD y m d)
  unfold nextDateYMD
  by_cases hlt : d < daysInMonth y m
  · rw [if_pos hlt, validDate_mk]
    exact ⟨hy, hm1, hm12, by omega, by omega⟩
  · rw [if_neg hlt]
    by_cases hm12' : m < 12
    · rw [if_pos hm12', validDate_mk]
      exact ⟨hy, by omega, by omega, le_refl 1, daysInMonth_pos y (m + 1)⟩
    · rw [if_neg hm12', validDate_mk]
      exact ⟨by omega, by omega, by omega, le_refl 1, daysInMonth_pos (y + 1) 1⟩

theorem yearStart_mono {a b : Nat} (h : a ≤ b) : yearStart a ≤ yearStart b := by
  induction b with
  | zero =>
    have ha : a = 0 := by omega
    subst ha; exact le_refl _
  | succ n ih =>
    rcases Nat.lt_or_ge a (n + 1) with h1 | h1
    · have hs := yearStart_succ (n + 1) (by omega)
      rw [Nat.add_sub_cancel] at hs
      have h2 := ih (by omega)
      split at hs <;> omega
    · have ha : a = n + 1 := by omega
      subst ha; exact le_refl _

theorem daysInMonth_le (y m : Nat) : daysInMonth y m ≤ 31 := by
  unfold daysInMonth
  split
  · split <;> omega
  · split <;> omega

theorem daysInMonth_feb_le (y : Nat) : daysInMonth y 2 ≤ 29 := by
  unfold daysInMonth
  norm_num
  split <;> omega

/-- A date's day number lies in the window of its March-based year. -/
theorem toOrd_window (y m d : Nat) (hy : 1 ≤ y) (hm1 : 1 ≤ m) (hm12 : m ≤ 12)
    (hd1 : 1 ≤ d) (hd2 : d ≤ daysInMonth y m) :
    yearStart (myYMD y m) ≤ toOrdYMD y m d ∧
      toOrdYMD y m d < yearStart (myYMD y m + 1) := by
  refine ⟨by unfold toOrdYMD; omega, ?_⟩
  by_cases hm2 : m ≤ 2
  · -- January or February: the March-based year is y - 1 and its length is
    -- determined by the leap status of civil year y
    have hmy : myYMD y m = y - 1 := if_pos hm2
    have hsucc : y - 1 + 1 = y := by omega
    have hys := yearStart_succ y hy
    unfold toOrdYMD doyYMD mpYMD daysInMonth at *
    rw [hmy, hsucc]
    interval_cases m
    · norm_num at hd2 ⊢
      split at hys <;> omega
    · rcases Bool.eq_false_or_eq_true (isLeap y) with hl | hl <;>
        rw [hl] at hd2 hys <;> simp_all <;> omega
  · have hmy : myYMD y m = y := if_neg hm2
    have hys := yearStart_succ (y + 1) (by omega)
    rw [Nat.add_sub_cancel] at hys
    unfold toOrdYMD doyYMD mpYMD
    rw [hmy, if_neg hm2]
    have hb : (153 * (m - 3) + 2) / 5 + d - 1 ≤ 336 := by
      unfold daysInMonth at hd2
      interval_cases m <;> simp_all <;> omega
    split at hys <;> omega

/-- Month-start day-of-year bounds in the shifted calendar. -/
theorem doy_month_window (y m d : Nat) (hm1 : 1 ≤ m)
    (hm12 : m ≤ 12) (hd1 : 1 ≤ d) (hd2 : d ≤ daysInMonth y m) :
    (153 * mpYMD m + 2) / 5 ≤ doyYMD m d ∧
      doyYMD m d < (153 * (mpYMD m + 1) + 2) / 5 := by
  have h31 : d ≤ 31 := le_trans hd2 (daysInMonth_le y m)
  have hfeb : m = 2 → d ≤ 29 := fun he => by
    subst he; exact le_trans hd2 (daysInMonth_feb_le y)
  unfold daysInMonth at hd2
  unfold doyYMD mpYMD
  interval_cases m <;> simp_all <;> omega

theorem ms_mono {a b : Nat} (h : a < b) :
    (153 * (a + 1) + 2) / 5 ≤ (153 * b + 2) / 5 := by
  have : 153 * (a + 1) + 2 ≤ 153 * b + 2 := by omega
  omega

/-- The civil day number determines the date: `toOrd` is injective on valid
dates. -/
theorem toOrd_inj (d1 d2 : PyDate) (h1 : ValidDate d1) (h2 : ValidDate d2)
    (h : toOrd d1 = toOrd d2) : d1 = d2 := by
  obtain ⟨y1, m1, dd1⟩ := d1
  obtain ⟨y2, m2, dd2⟩ := d2
  rw [validDate_mk] at h1 h2
  obtain ⟨hy1, hm11, hm121, hd11, hd21⟩ := h1
  obtain ⟨hy2, hm12, hm122, hd12, hd22⟩ := h2
  have hww1 := toOrd_window y1 m1 dd1 hy1 hm11 hm121 hd11 hd21
  have hww2 := toOrd_window y2 m2 dd2 hy2 hm12 hm122 hd12 hd22
  have hord : toOrdYMD y1 m1 dd1 = toOrdYMD y2 m2 dd2 := h
  -- the March-based years agree
  have hmy : myYMD y1 m1 = myYMD y2 m2 := by
    rcases Nat.lt_trichotomy (myYMD y1 m1) (myYMD y2 m2) with hlt | heq | hgt
    · have := yearStart_mono (show myYMD y1 m1 + 1 ≤ myYMD y2 m2 by omega)
      omega
    · exact heq
    · have := yearStart_mono (show myYMD y2 m2 + 1 ≤ myYMD y1 m1 by omega)
      omega
  -- hence the days-of-year agree
  have hdoy : doyYMD m1 dd1 = doyYMD m2 dd2 := by
    unfold toOrdYMD at hord
    rw [hmy] at hord
    omega
  -- hence the shifted months agree
  have hw1 := doy_month_window y1 m1 dd1 hm11 hm121 hd11 hd21
  have hw2 := doy_month_window y2 m2 dd2 hm12 hm122 hd12 hd22
  have hmp : mpYMD m1 = mpYMD m2 := by
    rcases Nat.lt_trichotomy (mpYMD m1) (mpYMD m2) with hlt | heq | hgt
    · have := ms_mono hlt; omega
    · exact heq
    · have := ms_mono hgt; omega
  -- hence months, days and years agree
  have hm : m1 = m2 := by
    unfold mpYMD at hmp
    by_cases ha : m1 ≤ 2 <;> by_cases hb : m2 ≤ 2 <;> simp_all <;> omega
  have hd : dd1 = dd2 := by
    unfold doyYMD at hdoy
    rw [hm] at hdoy
    omega
  have hyy : y1 = y2 := by
    unfold myYMD at hmy
    rw [hm] at hmy
    by_cases hb : m2 ≤ 2 <;> simp_all <;> omega
  rw [hm, hd, hyy]

/-- Iterating the calendar successor adds to the day number. -/
theorem toOrd_addDays (dt : PyDate) (k : Nat) (h : ValidDate dt) :
    toOrd (addDays dt k) = toOrd dt + k := by
  induction k generalizing dt with
  | zero => rfl
  | succ n ih =>
    show toOrd (addDays (nextDate dt) n) = toOrd dt + (n + 1)
    rw [ih (nextDate dt) (validDate_nextDate dt h), toOrd_nextDate dt h]
    omega

theorem validDate_addDays (dt : PyDate) (k : Nat) (h : ValidDate dt) :
    ValidDate (addDays dt k) := by
  induction k generalizing dt with
  | zero => exact h
  | succ n ih =>
    exact ih (nextDate dt) (validDate_nextDate dt h)

/-- Reaching a valid target date by iterating the calendar successor. -/
theorem addDays_reaches (k : Nat) (a b : PyDate) (ha : ValidDate a)
    (hb : ValidDate b) (h : toOrd b = toOrd a + k) : addDays a k = b := by
  induction k generalizing a with
  | zero =>
    exact toOrd_inj a b ha hb (by omega)
  | succ n ih =>
    show addDays (nextDate a) n = b
    exact ih (nextDate a) (validDate_nextDate a ha)
      (by rw [toOrd_nextDate a ha]; omega)

theorem addDays_nextDate_comm (dt : PyDate) (k : Nat) :
    addDays (nextDate dt) k = nextDate (addDays dt k) := by
  induction k generalizing dt with
  | zero => rfl
  | succ n ih =>
    show addDays (nextDate (nextDate dt)) n = nextDate (addDays (nextDate dt) n)
    exact ih (nextDate dt)


/-- The list of dates `batch_get` iterates over (`ga_api.py` lines 218-222):
`[(start_datetime + timedelta(i)).strftime(...) for i in range(delta.days+1)]`
where `delta = end_datetime - start_datetime`.  Adding `timedelta(i)` is
`i`-fold calendar succession; a non-positive `delta.days + 1` yields the empty
range, as in Python. -/
def batchDates (f l : PyDate) : List PyDate :=
  (List.range ((toOrd l : Int) - (toOrd f : Int) + 1).toNat).map (addDays f)

/-- Declared column type of a GA response column (`columnHeaders[i].dataType`). -/
inductive GAType
  | STRING | INTEGER | PERCENT | TIME | CURRENCY | FLOAT
deriving DecidableEq, Repr

/-- One entry of a response's `columnHeaders`. -/
structure ColHeader where
  name : String
  dataType : GAType
deriving DecidableEq, Repr

/-- One Core Reporting API response: the JSON fields that `get_max_results`
and `get_all_results` read.  `rows` is polymorphic in the row representation;
the sample sizes are exact rationals standing for the response's numbers. -/
structure Page (ρ : Type) where
  rows : List ρ
  itemsPerPage : Nat
  totalResults : Nat
  containsSampledData : Bool
  sampleSize : Rat
  sampleSpace : Rat
  columnHeaders : List ColHeader

/-- `ReportingService`: what `self.service.data().ga().get(...).execute()`
returns, as a function of the query parameters this class varies per call:
start/end date, `start_index`, and the `max_results` parameter sent. -/
def ServerFn (ρ : Type) : Type :=
  PyDate → PyDate → Nat → Option Int → Page ρ

/-- Python `range(start, stop, step)` for a positive step.  (Python raises
`ValueError` for `step = 0`; no claim below evaluates that case.) -/
def pythonRange (start stop step : Nat) : List Nat :=
  (List.range ((stop - start + step - 1) / step)).map (fun i => start + i * step)

/-- Lines 114-115: `self.pages` is reassigned only when
`items_per_page != total_results`; otherwise the previous value persists. -/
def pagesUpdate (prev : List Nat) (ipp total : Nat) : List Nat :=
  if ipp ≠ total then pythonRange 1 total ipp else prev

/-- The exceptions the embedded methods can raise: `ValueError` from argument
validation (line 86) and the type-conversion failure of pandas `astype`
(lines 175-177).  The `astype` exception's message names only the offending
cell value (e.g. Python's `invalid literal for int() with base 10: 'abc'`);
the column being converted is the line-175 loop variable at the raise site
and is *not* part of the exception that propagates to the caller, so
`typeError` carries the offending value alone. -/
inductive PyErr
  | valueError : String → PyErr
  | typeError : String → PyErr
deriving DecidableEq, Repr

/-- The attributes of a `GoogleAnalytics` object that the embedded methods
read or write (`__init__`, lines 16-28, plus the attributes assigned later),
together with logs of the observable effects: `sent` records every service
call issued with its parameters, `clampWarnings` counts the line-89 warning
prints, `samplingWarnings` records the line-139 sampling ratios printed, and
`subQueries` records the per-day windows of lines 224-226. -/
structure GAState where
  request_max_results : Option Int
  first_date : PyDate
  last_date : PyDate
  start_date : PyDate
  end_date : PyDate
  first_page : Bool
  items_per_page : Nat
  total_results : Nat
  pages : List Nat
  column_names : List String
  column_types : List GAType
  sent : List (PyDate × PyDate × Nat × Option Int)
  clampWarnings : Nat
  samplingWarnings : List Rat
  subQueries : List (PyDate × PyDate)
deriving Repr

/-- `__init__` (lines 16-28) with the request's dates already parsed.  Note
line 25: `self.end_date` is initialised from the request's *start* date.
`first_page`, `items_per_page` and `total_results` are not assigned in
`__init__`; every embedded call path assigns them before reading them, so
their initial values here are arbitrary. -/
def initState (req_max : Option Int) (f l : PyDate) : GAState :=
  { request_max_results := req_max
    first_date := f
    last_date := l
    start_date := f
    end_date := f
    first_page := true
    items_per_page := 0
    total_results := 0
    pages := []
    column_names := []
    column_types := []
    sent := []
    clampWarnings := 0
    samplingWarnings := []
    subQueries := [] }

/-- State evolution of one (non-raising) `get_max_results` call, field by
field: the clamp warning of lines 87-89 is counted when the (defaulted)
argument exceeds 10000; the service-call log records the parameters of lines
94-107 — line 104 sends `self.request.get('max_results')`, the raw request
value, not the validated argument; and the first-page block of lines 109-115
records the pagination metadata and recomputes `self.pages` only when
`items_per_page != total_results`. -/
def fetchState (server : ServerFn ρ) (st : GAState) (start_index : Nat)
    (max_results : Option Int) : GAState :=
  { st with
    clampWarnings := st.clampWarnings +
      (if (max_results.getD 1000 : Int) > 10000 then 1 else 0)
    sent := st.sent ++
      [(st.start_date, st.end_date, start_index, st.request_max_results)]
    first_page := false
    items_per_page :=
      if st.first_page then
        (server st.start_date st.end_date start_index
          st.request_max_results).itemsPerPage
      else st.items_per_page
    total_results :=
      if st.first_page then
        (server st.start_date st.end_date start_index
          st.request_max_results).totalResults
      else st.total_results
    pages :=
      if st.first_page then
        pagesUpdate st.pages
          (server st.start_date st.end_date start_index
            st.request_max_results).itemsPerPage
          (server st.start_date st.end_date start_index
            st.request_max_results).totalResults
      else st.pages }

/-- Lines 72-121 (`get_max_results`).  The `max_results` argument is
validated: `None` defaults to 1000 (line 83-84), a negative value raises
`ValueError` (lines 85-86), a value above 10000 prints a warning and
overwrites the local variable (lines 87-89) — which the service call then
ignores.  On success, returns the page the service produced for the object's
current one-day window together with the updated object state. -/
def get_max_results (server : ServerFn ρ) (st : GAState) (start_index : Nat)
    (max_results : Option Int) : Except PyErr (Page ρ × GAState) :=
  if (max_results.getD 1000 : Int) < 0 then
    .error (.valueError "Argument max_value has to be larger than zero.")
  else
    .ok (server st.start_date st.end_date start_index st.request_max_results,
      fetchState server st start_index max_results)

/-- Left-to-right removal of every non-overlapping occurrence of `"ga:"`:
the behaviour of Python `str.replace('ga:', '')`. -/
def stripGaChars : List Char → List Char
  | 'g' :: 'a' :: ':' :: rest => stripGaChars rest
  | c :: rest => c :: stripGaChars rest
  | [] => []

/-- Line 143: `c['name'].replace('ga:', '')`. -/
def stripGa (s : String) : String :=
  String.mk (stripGaChars s.data)

/-- The comprehension of lines 150-152: for each remaining planned start
index, fetch that page and append its rows in order. -/
def getAllLoop (server : ServerFn ρ) :
    List Nat → List ρ → GAState → Except PyErr (List ρ × GAState)
  | [], rows, st => .ok (rows, st)
  | p :: ps, rows, st =>
    match get_max_results server st p st.request_max_results with
    | .error e => .error e
    | .ok (r, st') => getAllLoop server ps (rows ++ r.rows) st'

/-- Lines 123-155 (`get_all_results`): fetch the first page, check sampling,
record the column schema, then fetch the remaining planned pages
(`self.pages[1:]`) and concatenate all rows in page order. -/
def get_all_results (server : ServerFn ρ) (st0 : GAState) :
    Except PyErr (List ρ × GAState) :=
  match get_max_results server { st0 with first_page := true } 1
    st0.request_max_results with
  | .error e => .error e
  | .ok (results, st1) =>
    let st3 := { st1 with
      samplingWarnings :=
        if results.containsSampledData then
          st1.samplingWarnings ++
            [results.sampleSize / results.sampleSpace * 100]
        else st1.samplingWarnings
      column_names := results.columnHeaders.map (fun c => stripGa c.name)
      column_types := results.columnHeaders.map (fun c => c.dataType) }
    getAllLoop server (st3.pages.drop 1) results.rows st3

/-- Pandas column dtypes targeted by `transform_results`. -/
inductive PdType
  | object | int | float
deriving DecidableEq, Repr

/-- A typed cell after coercion. -/
inductive PdValue
  | s : String → PdValue
  | i : Int → PdValue
  | f : Rat → PdValue
deriving DecidableEq, Repr

/-- The `conversions` dict of lines 166-173. -/
def conversions : GAType → PdType
  | .STRING => .object
  | .INTEGER => .int
  | .PERCENT => .float
  | .TIME => .float
  | .CURRENCY => .float
  | .FLOAT => .float

/-- Decimal value of a digit list. -/
def digitsNatVal (cs : List Char) : Nat :=
  cs.foldl (fun a c => a * 10 + (c.toNat - 48)) 0

/-- Numeric value of a nonempty all-digit character list. -/
def digitsVal (cs : List Char) : Option Nat :=
  if cs = [] then none
  else if cs.all Char.isDigit then some (digitsNatVal cs)
  else none

/-- Python `int(str)` on the forms the dataframe cells take: an optional sign
followed by decimal digits. -/
def parsePyInt (s : String) : Option Int :=
  match s.toList with
  | '-' :: rest => (digitsVal rest).map (fun n => -(n : Int))
  | '+' :: rest => (digitsVal rest).map (fun n => (n : Int))
  | l => (digitsVal l).map (fun n => (n : Int))

/-- Value of `intDigits [. fracDigits]` with at least one digit overall, as an
exact rational. -/
def parseFloatCore (cs : List Char) : Option Rat :=
  match cs.splitOn '.' with
  | [a] => (digitsVal a).map (fun n => mkRat n 1)
  | [a, b] =>
    if (a ++ b) ≠ [] ∧ (a ++ b).all Char.isDigit then
      some (mkRat (digitsNatVal a * 10 ^ b.length + digitsNatVal b)
        (10 ^ b.length))
    else none
  | _ => none

/-- Python `float(str)` on plain decimal literals `[sign] digits [. digits]`,
as an exact rational.  (Exponent and special forms are outside what any claim
evaluates.) -/
def parsePyFloat (s : String) : Option Rat :=
  match s.toList with
  | '-' :: rest => (parseFloatCore rest).map (fun q => -q)
  | '+' :: rest => parseFloatCore rest
  | l => parseFloatCore l

/-- `astype` of a single cell under the target dtype. -/
def astypeCell : PdType → String → Option PdValue
  | .object, s => some (.s s)
  | .int, s => (parsePyInt s).map .i
  | .float, s => (parsePyFloat s).map .f

/-- `df[column].astype(...)`: converts the whole column selected by `name`,
failing on the first cell that does not parse.  The raised error carries the
offending value only — pandas' exception message does not identify the
column to the caller (`name` selects the column, as `df[column]` does, but
does not enter the error payload). -/
def astypeColumn (t : PdType) (name : String) :
    List String → Except PyErr (List PdValue)
  | [] => .ok []
  | c :: cs =>
    match astypeCell t c with
    | none => .error (.typeError c)
    | some v =>
      match astypeColumn t name cs with
      | .error e => .error e
      | .ok vs => .ok (v :: vs)

/-- Cells of column `j` of a row-major dataframe (rows aligned to the column
list; `""` stands for a missing cell, which no claim exercises). -/
def colCells (df : List (List String)) (j : Nat) : List String :=
  df.map (fun r => r.getD j "")

/-- The loop of lines 175-177 from column position `j` on: each column is
converted to the dtype `conversions` assigns to its declared type
(`self.column_types[df.columns.get_loc(column)]`). -/
def transFrom (types : List GAType) (df : List (List String)) :
    Nat → List String → Except PyErr (List (List PdValue))
  | _, [] => .ok []
  | j, n :: ns =>
    match astypeColumn (conversions (types.getD j .STRING)) n (colCells df j)
      with
    | .error e => .error e
    | .ok col =>
      match transFrom types df (j + 1) ns with
      | .error e => .error e
      | .ok cols => .ok (col :: cols)

/-- Lines 157-179 (`transform_results`): per-column dtype coercion of the
dataframe; the result is column-major (one list of typed cells per column). -/
def transform_results (types : List GAType) (names : List String)
    (df : List (List String)) : Except PyErr (List (List PdValue)) :=
  transFrom types df 0 names

/-- Outcome of one `batch_get` call: the accumulated raw dataframe, the error
if one was raised, the coerced dataframe when coercion ran and succeeded, how
many times `transform_results` was invoked, whether `save_to_file` executed,
and the final object state. -/
structure BatchTrace where
  rawRows : List (List String)
  err : Option PyErr
  typed : Option (List (List PdValue))
  transformCalls : Nat
  saved : Bool
  st : GAState
deriving Repr

/-- Lines 224-230: the per-day loop of `batch_get`.  Each day sets the
object's window to that single day, runs `get_all_results`, and appends the
returned rows to the accumulated dataframe. -/
def batchLoop (server : ServerFn (List String)) :
    List PyDate → List (List String) → GAState →
    Except PyErr (List (List String) × GAState)
  | [], df, st => .ok (df, st)
  | d :: ds, df, st =>
    let st1 := { st with start_date := d, end_date := d,
                         subQueries := st.subQueries ++ [(d, d)] }
    match get_all_results server st1 with
    | .error e => .error e
    | .ok (batch, st2) => batchLoop server ds (df ++ batch) st2

/-- Lines 210-241 (`batch_get`): expand the date range into days, fetch each
day, append its rows, coerce the accumulated dataframe exactly once if it is
non-empty (line 232-233), then print the summary and, if requested, save to
file.  An exception leaves `err` set; nothing is saved in that case. -/
def batch_get (server : ServerFn (List String)) (req_max : Option Int)
    (f l : PyDate) (output_file : Bool) : BatchTrace :=
  let st0 := initState req_max f l
  let dates := batchDates f l
  match batchLoop server dates [] st0 with
  | .error e =>
    { rawRows := [], err := some e, typed := none, transformCalls := 0,
      saved := false, st := st0 }
  | .ok (df, st) =>
    if 0 < df.length then
      match transform_results st.column_types st.column_names df with
      | .error e =>
        { rawRows := df, err := some e, typed := none, transformCalls := 1,
          saved := false, st := st }
      | .ok t =>
        { rawRows := df, err := none, typed := some t, transformCalls := 1,
          saved := output_file, st := st }
    else
      { rawRows := df, err := none, typed := none, transformCalls := 0,
        saved := output_file, st := st }

/-- Rows of a nominally-behaving reporting service for one day holding
`total` matching rows: the page starting at 1-based index `si` holds the rows
`si .. min (si + ipp - 1) total`, identified by their index. -/
def nominalRows (total ipp si : Nat) : List Nat :=
  List.range' si (min (si + ipp - 1) total + 1 - si)

/-- A nominal response page with `Nat` row identifiers. -/
def nominalPage (total ipp : Nat) (hdrs : List ColHeader) (si : Nat) :
    Page Nat :=
  { rows := nominalRows total ipp si
    itemsPerPage := ipp
    totalResults := total
    containsSampledData := false
    sampleSize := 0
    sampleSpace := 1
    columnHeaders := hdrs }

/-- A nominal response page whose rows are single-cell string rows. -/
def nominalPageS (total ipp : Nat) (hdrs : List ColHeader) (si : Nat) :
    Page (List String) :=
  { rows := (nominalRows total ipp si).map (fun k => [toString k])
    itemsPerPage := ipp
    totalResults := total
    containsSampledData := false
    sampleSize := 0
    sampleSpace := 1
    columnHeaders := hdrs }

deriving instance DecidableEq for Except

/-- `true` iff the call returned without raising. -/
def isOkE : Except ε α → Bool
  | .ok _ => true
  | .error _ => false

/-- Service-call log of a fetch outcome (`none` when the call raised). -/
def sentLog (r : Except PyErr (Page ρ × GAState)) :
    Option (List (PyDate × PyDate × Nat × Option Int)) :=
  match r with
  | .ok (_, st) => some st.sent
  | .error _ => none

/-- Clamp-warning count of a fetch outcome. -/
def clampLog (r : Except PyErr (Page ρ × GAState)) : Option Nat :=
  match r with
  | .ok (_, st) => some st.clampWarnings
  | .error _ => none

/-- Row count of a day's assembled result. -/
def rowsLenOf (r : Except PyErr (List ρ × GAState)) : Option Nat :=
  match r with
  | .ok (rows, _) => some rows.length
  | .error _ => none

/-- `total_results` recorded by a day's run. -/
def totalOf (r : Except PyErr (List ρ × GAState)) : Option Nat :=
  match r with
  | .ok (_, st) => some st.total_results
  | .error _ => none

/-- `pages` plan held after a day's run. -/
def pagesOf (r : Except PyErr (List ρ × GAState)) : Option (List Nat) :=
  match r with
  | .ok (_, st) => some st.pages
  | .error _ => none

/-- Reference dates for the concrete evaluations. -/
def day1 : PyDate := ⟨2021, 3, 1⟩

def day2 : PyDate := ⟨2021, 3, 2⟩

/-- A reporting service returning empty pages; used where only the request
parameters sent to it matter. -/
def constServer : ServerFn Nat := fun _ _ _ _ =>
  { rows := [], itemsPerPage := 0, totalResults := 0,
    containsSampledData := false, sampleSize := 0, sampleSpace := 1,
    columnHeaders := [] }

/-- C1: refuted at the failing input.  A fetch call with page size 20000
(request `max_results` also 20000) prints the clamp warning
(`clampLog = 1`) but sends 20000 to `ReportingService`, not 10000: line 104
passes the raw `self.request.get('max_results')` and discards the clamped
local variable, so the effective requested size for oversize inputs is not
10000 as the claim states. -/
theorem C1_oversize_sent_unclamped :
    sentLog (get_max_results constServer (initState (some 20000) day1 day1) 1
      (some 20000)) = some [(day1, day1, 1, some 20000)] ∧
    clampLog (get_max_results constServer (initState (some 20000) day1 day1) 1
      (some 20000)) = some 1 ∧
    (some 20000 : Option Int) ≠ some 10000 :=
  ⟨by decide, by decide, by decide⟩

/-- C2: refuted at page size 0.  Line 85 tests `< 0`, so 0 passes validation
(despite the message "has to be larger than zero") and a service call is
issued; a negative page size does raise before any call. -/
theorem C2_zero_page_size_accepted :
    isOkE (get_max_results constServer (initState (some 1000) day1 day1) 1
      (some 0)) = true ∧
    sentLog (get_max_results constServer (initState (some 1000) day1 day1) 1
      (some 0)) = some [(day1, day1, 1, some 1000)] ∧
    isOkE (get_max_results constServer (initState (some 1000) day1 day1) 1
      (some (-1))) = false :=
  ⟨by decide, by decide, by decide⟩

/-- C3: the planner's examples hold on a fresh object, but when
`items_per_page == total_results` the plan is not recomputed (lines 114-115
only assign `self.pages` when they differ), so after a day that planned
`[1, 101, 201]`, a day with `plan(100, 100)` keeps `[1, 101, 201]` instead of
the empty plan the claim states. -/
theorem C3_plan_stale_when_single_page :
    pagesUpdate [] 100 250 = [1, 101, 201] ∧
    pagesUpdate [] 100 0 = [] ∧
    pagesUpdate [] 100 100 = [] ∧
    pagesUpdate (pagesUpdate [] 100 250) 100 100 = [1, 101, 201] ∧
    pagesUpdate (pagesUpdate [] 100 250) 100 100 ≠ [] :=
  ⟨by decide, by decide, by decide, by decide, by decide⟩

/-- C6: the fixed declared-type mapping of the `conversions` dict
(STRING→text, INTEGER→integer, PERCENT/TIME/CURRENCY/FLOAT→floating point)
is applied per column via the declared type at the column's position, and the
example coercions hold: INTEGER `["1","2","3"]` gives integers `[1,2,3]`,
PERCENT `["12.5"]` gives the exact value 12.5. -/
theorem C6_type_coercion :
    conversions .STRING = .object ∧ conversions .INTEGER = .int ∧
    conversions .PERCENT = .float ∧ conversions .TIME = .float ∧
    conversions .CURRENCY = .float ∧ conversions .FLOAT = .float ∧
    astypeColumn (conversions .INTEGER) "sessions" ["1", "2", "3"] =
      .ok [.i 1, .i 2, .i 3] ∧
    astypeColumn (conversions .PERCENT) "percentNewSessions" ["12.5"] =
      .ok [.f (25 / 2)] ∧
    transform_results [.INTEGER, .PERCENT] ["sessions", "percentNewSessions"]
      [["1", "12.5"], ["2", "0.5"], ["3", "7"]] =
      .ok [[.i 1, .i 2, .i 3], [.f (25 / 2), .f (1 / 2), .f 7]] := by
  refine ⟨rfl, rfl, rfl, rfl, rfl, rfl, by decide, ?_, ?_⟩
  · have h : astypeColumn (conversions .PERCENT) "percentNewSessions" ["12.5"]
        = .ok [.f (mkRat 25 2)] := by decide
    rw [h, show mkRat 25 2 = (25 : Rat) / 2 from by
      rw [Rat.mkRat_eq_div]; norm_num]
  · have h : transform_results [.INTEGER, .PERCENT]
        ["sessions", "percentNewSessions"]
        [["1", "12.5"], ["2", "0.5"], ["3", "7"]] =
        .ok [[.i 1, .i 2, .i 3],
          [.f (mkRat 25 2), .f (mkRat 1 2), .f (mkRat 7 1)]] := by decide
    rw [h, show mkRat 25 2 = (25 : Rat) / 2 from by
        rw [Rat.mkRat_eq_div]; norm_num,
      show mkRat 1 2 = (1 : Rat) / 2 from by
        rw [Rat.mkRat_eq_div]; norm_num,
      show mkRat 7 1 = (7 : Rat) from by
        rw [Rat.mkRat_eq_div]; norm_num]



/-- A successful fetch: with a non-negative (defaulted) argument the call
does not raise and the state evolves by `fetchState`. -/
theorem get_max_results_ok (server : ServerFn ρ) (st : GAState) (si : Nat)
    (mr : Option Int) (h : ¬((mr.getD 1000 : Int) < 0)) :
    get_max_results server st si mr =
      .ok (server st.start_date st.end_date si st.request_max_results,
        fetchState server st si mr) := by
  unfold get_max_results
  rw [if_neg h]

@[simp] theorem fetchState_start_date (server : ServerFn ρ) (st si mr) :
    (fetchState server st si mr).start_date = st.start_date := rfl

@[simp] theorem fetchState_end_date (server : ServerFn ρ) (st si mr) :
    (fetchState server st si mr).end_date = st.end_date := rfl

@[simp] theorem fetchState_first_date (server : ServerFn ρ) (st si mr) :
    (fetchState server st si mr).first_date = st.first_date := rfl

@[simp] theorem fetchState_last_date (server : ServerFn ρ) (st si mr) :
    (fetchState server st si mr).last_date = st.last_date := rfl

@[simp] theorem fetchState_request (server : ServerFn ρ) (st si mr) :
    (fetchState server st si mr).request_max_results =
      st.request_max_results := rfl

@[simp] theorem fetchState_subQueries (server : ServerFn ρ) (st si mr) :
    (fetchState server st si mr).subQueries = st.subQueries := rfl

@[simp] theorem fetchState_samplingWarnings (server : ServerFn ρ) (st si mr) :
    (fetchState server st si mr).samplingWarnings = st.samplingWarnings := rfl

@[simp] theorem fetchState_column_names (server : ServerFn ρ) (st si mr) :
    (fetchState server st si mr).column_names = st.column_names := rfl

@[simp] theorem fetchState_column_types (server : ServerFn ρ) (st si mr) :
    (fetchState server st si mr).column_types = st.column_types := rfl

@[simp] theorem fetchState_first_page (server : ServerFn ρ) (st si mr) :
    (fetchState server st si mr).first_page = false := rfl

@[simp] theorem fetchState_sent (server : ServerFn ρ) (st si mr) :
    (fetchState server st si mr).sent = st.sent ++
      [(st.start_date, st.end_date, si, st.request_max_results)] := rfl

theorem fetchState_pages_of_false (server : ServerFn ρ) (st si mr)
    (hf : st.first_page = false) :
    (fetchState server st si mr).pages = st.pages := by
  simp [fetchState, hf]

theorem fetchState_items_of_false (server : ServerFn ρ) (st si mr)
    (hf : st.first_page = false) :
    (fetchState server st si mr).items_per_page = st.items_per_page := by
  simp [fetchState, hf]

theorem fetchState_total_of_false (server : ServerFn ρ) (st si mr)
    (hf : st.first_page = false) :
    (fetchState server st si mr).total_results = st.total_results := by
  simp [fetchState, hf]

theorem fetchState_pages_of_true (server : ServerFn ρ) (st si mr)
    (hf : st.first_page = true) :
    (fetchState server st si mr).pages =
      pagesUpdate st.pages
        (server st.start_date st.end_date si st.request_max_results).itemsPerPage
        (server st.start_date st.end_date si st.request_max_results).totalResults := by
  simp [fetchState, hf]

theorem fetchState_items_of_true (server : ServerFn ρ) (st si mr)
    (hf : st.first_page = true) :
    (fetchState server st si mr).items_per_page =
      (server st.start_date st.end_date si st.request_max_results).itemsPerPage := by
  simp [fetchState, hf]

theorem fetchState_total_of_true (server : ServerFn ρ) (st si mr)
    (hf : st.first_page = true) :
    (fetchState server st si mr).total_results =
      (server st.start_date st.end_date si st.request_max_results).totalResults := by
  simp [fetchState, hf]

/-- The continuation-page loop: with valid request size it never raises, it
appends the planned pages' rows in plan order, it issues one service call per
planned page, and it leaves every field except the call log unchanged (the
pagination metadata stays put because the first-page flag is down). -/
theorem getAllLoop_spec (server : ServerFn ρ) (ps : List Nat) (rows : List ρ)
    (st : GAState) (h : ¬((st.request_max_results.getD 1000 : Int) < 0)) :
    ∃ rows' st', getAllLoop server ps rows st = .ok (rows', st') ∧
      rows' = rows ++ (ps.map (fun p =>
        (server st.start_date st.end_date p st.request_max_results).rows)).flatten ∧
      st'.start_date = st.start_date ∧
      st'.end_date = st.end_date ∧
      st'.first_date = st.first_date ∧
      st'.last_date = st.last_date ∧
      st'.request_max_results = st.request_max_results ∧
      st'.subQueries = st.subQueries ∧
      st'.samplingWarnings = st.samplingWarnings ∧
      st'.column_names = st.column_names ∧
      st'.column_types = st.column_types ∧
      st'.sent.length = st.sent.length + ps.length ∧
      (st.first_page = false →
        st'.pages = st.pages ∧ st'.items_per_page = st.items_per_page ∧
        st'.total_results = st.total_results ∧ st'.first_page = false) := by
  induction ps generalizing rows st with
  | nil =>
    exact ⟨rows, st, rfl, by simp, rfl, rfl, rfl, rfl, rfl, rfl, rfl, rfl,
      rfl, by simp [getAllLoop], fun hf => ⟨rfl, rfl, rfl, hf⟩⟩
  | cons p ps ih =>
    have heq := get_max_results_ok server st p st.request_max_results h
    obtain ⟨rows', st', hrun, hrows, hsd, hed, hfd, hld, hreq, hsq, hsw, hcn,
      hct, hsent, hpg⟩ :=
      ih (rows ++ (server st.start_date st.end_date p
        st.request_max_results).rows) (fetchState server st p
          st.request_max_results) (by simpa using h)
    refine ⟨rows', st', ?_, ?_, by simpa using hsd, by simpa using hed,
      by simpa using hfd, by simpa using hld, by simpa using hreq,
      by simpa using hsq, by simpa using hsw, by simpa using hcn,
      by simpa using hct, ?_, ?_⟩
    · simp only [getAllLoop]
      rw [heq]
      exact hrun
    · rw [hrows]
      simp [List.append_assoc]
    · rw [hsent]
      simp
      omega
    · intro hf
      obtain ⟨h1, h2, h3, h4⟩ := hpg rfl
      refine ⟨?_, ?_, ?_, h4⟩
      · rw [h1, fetchState_pages_of_false server st p st.request_max_results hf]
      · rw [h2, fetchState_items_of_false server st p st.request_max_results hf]
      · rw [h3, fetchState_total_of_false server st p st.request_max_results hf]

/-- The first page requested by a day's run. -/
def firstPage (server : ServerFn ρ) (st : GAState) : Page ρ :=
  server st.start_date st.end_date 1 st.request_max_results

/-- The pagination plan a day's run holds after its first fetch. -/
def dayPlan (server : ServerFn ρ) (st : GAState) : List Nat :=
  pagesUpdate st.pages (firstPage server st).itemsPerPage
    (firstPage server st).totalResults

/-- One day's run (`get_all_results`): with a valid request size it never
raises; it returns the first page's rows followed, in plan order, by the rows
of each further planned page; it records the schema of the first page's
column headers; it warns about sampling exactly when the first page carries
`containsSampledData`, with ratio `sampleSize / sampleSpace * 100`; and it
issues `1 + |plan[1:]|` service calls. -/
theorem get_all_results_spec (server : ServerFn ρ) (st0 : GAState)
    (h : ¬((st0.request_max_results.getD 1000 : Int) < 0)) :
    ∃ rows st',
      get_all_results server st0 = .ok (rows, st') ∧
      rows = (firstPage server st0).rows ++
        (((dayPlan server st0).drop 1).map (fun p =>
          (server st0.start_date st0.end_date p
            st0.request_max_results).rows)).flatten ∧
      st'.start_date = st0.start_date ∧
      st'.end_date = st0.end_date ∧
      st'.first_date = st0.first_date ∧
      st'.last_date = st0.last_date ∧
      st'.request_max_results = st0.request_max_results ∧
      st'.subQueries = st0.subQueries ∧
      st'.pages = dayPlan server st0 ∧
      st'.items_per_page = (firstPage server st0).itemsPerPage ∧
      st'.total_results = (firstPage server st0).totalResults ∧
      st'.column_names = (firstPage server st0).columnHeaders.map
        (fun c => stripGa c.name) ∧
      st'.column_types = (firstPage server st0).columnHeaders.map
        (fun c => c.dataType) ∧
      st'.sent.length = st0.sent.length + 1 +
        ((dayPlan server st0).drop 1).length ∧
      ((firstPage server st0).containsSampledData = true →
        st'.samplingWarnings = st0.samplingWarnings ++
          [(firstPage server st0).sampleSize /
            (firstPage server st0).sampleSpace * 100]) ∧
      ((firstPage server st0).containsSampledData = false →
        st'.samplingWarnings = st0.samplingWarnings) := by
  have heq := get_max_results_ok server { st0 with first_page := true } 1
    st0.request_max_results h
  obtain ⟨rows', st', hrun, hrows, hsd, hed, hfd, hld, hreq, hsq, hsw, hcn,
    hct, hsent, hpg⟩ :=
    getAllLoop_spec server
      ((fetchState server { st0 with first_page := true } 1
        st0.request_max_results).pages.drop 1)
      (server st0.start_date st0.end_date 1 st0.request_max_results).rows
      { fetchState server { st0 with first_page := true } 1
          st0.request_max_results with
        samplingWarnings :=
          if (server st0.start_date st0.end_date 1
              st0.request_max_results).containsSampledData then
            (fetchState server { st0 with first_page := true } 1
              st0.request_max_results).samplingWarnings ++
              [(server st0.start_date st0.end_date 1
                  st0.request_max_results).sampleSize /
                (server st0.start_date st0.end_date 1
                  st0.request_max_results).sampleSpace * 100]
          else
            (fetchState server { st0 with first_page := true } 1
              st0.request_max_results).samplingWarnings
        column_names := (server st0.start_date st0.end_date 1
          st0.request_max_results).columnHeaders.map (fun c => stripGa c.name)
        column_types := (server st0.start_date st0.end_date 1
          st0.request_max_results).columnHeaders.map (fun c => c.dataType) }
      (by simpa using h)
  have hpages : (fetchState server { st0 with first_page := true } 1
      st0.request_max_results).pages = dayPlan server st0 := by
    rw [fetchState_pages_of_true server _ 1 st0.request_max_results rfl]
    rfl
  obtain ⟨hpg1, hpg2, hpg3, hpg4⟩ := hpg rfl
  refine ⟨rows', st', ?_, ?_, by simpa using hsd, by simpa using hed,
    by simpa using hfd, by simpa using hld, by simpa using hreq,
    by simpa using hsq, ?_, ?_, ?_, by simpa using hcn, by simpa using hct,
    ?_, ?_, ?_⟩
  · simp only [get_all_results]
    rw [heq]
    exact hrun
  · rw [hrows, hpages]
    rfl
  · rw [hpg1]
    simpa using hpages
  · rw [hpg2]
    rw [fetchState_items_of_true server _ 1 st0.request_max_results rfl]
    simp [firstPage]
  · rw [hpg3]
    rw [fetchState_total_of_true server _ 1 st0.request_max_results rfl]
    simp [firstPage]
  · rw [hsent, hpages]
    simp [firstPage]
  · intro hcs
    rw [hsw]
    simp only [fetchState_samplingWarnings]
    simp [firstPage] at hcs
    simp [hcs, firstPage]
  · intro hcs
    rw [hsw]
    simp only [fetchState_samplingWarnings]
    simp [firstPage] at hcs
    simp [hcs, firstPage]



/-- The per-day loop of `batch_get`: with a valid request size it never
raises, it issues exactly one sub-query window `(d, d)` per day in list
order, it never reassigns `first_date`/`last_date`, and after a non-empty
day list the object's window rests on the final day. -/
theorem batchLoop_spec (server : ServerFn (List String)) (ds : List PyDate)
    (df : List (List String)) (st : GAState)
    (h : ¬((st.request_max_results.getD 1000 : Int) < 0)) :
    ∃ df' st', batchLoop server ds df st = .ok (df', st') ∧
      st'.first_date = st.first_date ∧
      st'.last_date = st.last_date ∧
      st'.request_max_results = st.request_max_results ∧
      st'.subQueries = st.subQueries ++ ds.map (fun d => (d, d)) ∧
      (ds = [] → df' = df ∧ st' = st) ∧
      (∀ x, ds.getLast? = some x → st'.start_date = x ∧ st'.end_date = x) := by
  induction ds generalizing df st with
  | nil =>
    exact ⟨df, st, rfl, rfl, rfl, rfl, by simp, fun _ => ⟨rfl, rfl⟩,
      fun x hx => by simp at hx⟩
  | cons d ds ih =>
    obtain ⟨rows, st2, hrun2, _, hsd2, hed2, hfd2, hld2, hreq2, hsq2,
      _, _, _, _, _, _, _, _⟩ :=
      get_all_results_spec server
        { st with
          start_date := d
          end_date := d
          subQueries := st.subQueries ++ [(d, d)] } (by simpa using h)
    obtain ⟨df', st', hrun', hfd', hld', hreq', hsq', hemp', hlast'⟩ :=
      ih (df ++ rows) st2 (by rw [hreq2]; simpa using h)
    refine ⟨df', st', ?_, ?_, ?_, ?_, ?_, ?_, ?_⟩
    · simp only [batchLoop]
      rw [hrun2]
      exact hrun'
    · rw [hfd', hfd2]
    · rw [hld', hld2]
    · rw [hreq', hreq2]
    · rw [hsq', hsq2]
      simp
    · intro hds
      simp at hds
    · intro x hx
      by_cases hds : ds = []
      · subst hds
        simp at hx
        obtain ⟨hdf', hst'⟩ := hemp' rfl
        subst hst'
        rw [hsd2, hed2]
        subst hx
        exact ⟨rfl, rfl⟩
      · obtain ⟨y, ys, hys⟩ := List.exists_cons_of_ne_nil hds
        subst hys
        rw [List.getLast?_cons_cons] at hx
        exact hlast' x hx

/-- `astype` with the `object` dtype converts nothing: every cell is kept as
text, so the conversion of a STRING-declared column always succeeds. -/
theorem astypeColumn_object (name : String) (cells : List String) :
    astypeColumn .object name cells = .ok (cells.map PdValue.s) := by
  induction cells with
  | nil => rfl
  | cons c cs ih => simp [astypeColumn, astypeCell, ih]



theorem batchDates_length (f l : PyDate) (hle : toOrd f ≤ toOrd l) :
    (batchDates f l).length = toOrd l - toOrd f + 1 := by
  simp [batchDates]
  omega

theorem batchDates_getElem (f l : PyDate) (i : Nat)
    (hi : i < (batchDates f l).length) :
    (batchDates f l)[i]? = some (addDays f i) := by
  simp only [batchDates, List.length_map, List.length_range] at hi
  simp only [batchDates, List.getElem?_map]
  rw [List.getElem?_range hi]
  rfl

theorem batchDates_head (f l : PyDate) (hle : toOrd f ≤ toOrd l) :
    (batchDates f l).head? = some f := by
  rw [List.head?_eq_getElem?,
    batchDates_getElem f l 0 (by rw [batchDates_length f l hle]; omega)]
  rfl

theorem batchDates_getLast (f l : PyDate) (hf : ValidDate f)
    (hl : ValidDate l) (hle : toOrd f ≤ toOrd l) :
    (batchDates f l).getLast? = some l := by
  have hlen := batchDates_length f l hle
  rw [List.getLast?_eq_getElem?, hlen,
    show toOrd l - toOrd f + 1 - 1 = toOrd l - toOrd f from rfl,
    batchDates_getElem f l (toOrd l - toOrd f) (by rw [hlen]; omega),
    addDays_reaches (toOrd l - toOrd f) f l hf hl (by omega)]

theorem batchDates_consecutive (f l : PyDate) (hf : ValidDate f) (i : Nat)
    (a b : PyDate) (ha : (batchDates f l)[i]? = some a)
    (hb : (batchDates f l)[i + 1]? = some b) :
    b = nextDate a ∧ ValidDate a := by
  have hi : i < (batchDates f l).length := by
    by_contra hc
    rw [List.getElem?_eq_none (le_of_not_lt hc)] at ha
    cases ha
  have hi1 : i + 1 < (batchDates f l).length := by
    by_contra hc
    rw [List.getElem?_eq_none (le_of_not_lt hc)] at hb
    cases hb
  rw [batchDates_getElem f l i hi] at ha
  rw [batchDates_getElem f l (i + 1) hi1] at hb
  have hstep : addDays f (i + 1) = nextDate (addDays f i) := by
    show addDays (nextDate f) i = nextDate (addDays f i)
    exact addDays_nextDate_comm f i
  cases ha
  cases hb
  exact ⟨hstep, validDate_addDays f i hf⟩


/-- The single-day failing scenario for C4: the service reports
`totalResults = 3` with `itemsPerPage = 2`. -/
def srvOffByOne : ServerFn Nat := fun _ _ si _ => nominalPage 3 2 [] si

/-- Day-keyed service for the end-to-end example of C4: day 1 holds 400 rows,
day 2 holds 1500, with pages of 1000. -/
def srvTwoDay : ServerFn (List String) := fun sd _ si _ =>
  if sd = day1 then nominalPageS 400 1000 [⟨"ga:x", .STRING⟩] si
  else nominalPageS 1500 1000 [⟨"ga:x", .STRING⟩] si

set_option maxRecDepth 10000 in
/-- C4: refuted at the failing input.  For a day with `totalResults = 3` and
`itemsPerPage = 2`, the plan `range(1, 3, 2) = [1]` stops short (the start
index 3 is excluded by the exclusive range bound), so `get_all_results`
returns 2 rows although `total_results` is 3: the final row is lost whenever
`total_results % items_per_page == 1` and they differ.  The claim's own
end-to-end example does hold: a 2-day range of 400 and 1500 rows with pages
of 1000 yields 1900 rows in exactly 3 service calls with no error. -/
theorem C4_last_row_lost :
    rowsLenOf (get_all_results srvOffByOne (initState (some 2) day1 day1)) =
      some 2 ∧
    totalOf (get_all_results srvOffByOne (initState (some 2) day1 day1)) =
      some 3 ∧
    (batch_get srvTwoDay (some 1000) day1 day2 false).rawRows.length = 1900 ∧
    (batch_get srvTwoDay (some 1000) day1 day2 false).st.sent.length = 3 ∧
    (batch_get srvTwoDay (some 1000) day1 day2 false).err = none := by
  have hdates : batchDates day1 day2 = [day1, day2] := by decide
  obtain ⟨rows1, stA, hrunA, hrowsA, _, _, _, _, hreqA, _, hpgA, _, _, _, _,
    hsentA, _, _⟩ :=
    get_all_results_spec srvTwoDay
      { initState (some 1000) day1 day2 with
        start_date := day1
        end_date := day1
        subQueries := (initState (some 1000) day1 day2).subQueries ++
          [(day1, day1)] } (by decide)
  have hreqA' : stA.request_max_results = some 1000 := by rw [hreqA]; rfl
  have hpgA' : stA.pages = [1] := by rw [hpgA]; decide
  have hplanA : dayPlan srvTwoDay
      { initState (some 1000) day1 day2 with
        start_date := day1
        end_date := day1
        subQueries := (initState (some 1000) day1 day2).subQueries ++
          [(day1, day1)] } = [1] := by decide
  have hlen1 : rows1.length = 400 := by
    rw [hrowsA, hplanA]
    decide
  have hsent1 : stA.sent.length = 1 := by
    rw [hsentA, hplanA]
    decide
  obtain ⟨rows2, stB, hrunB, hrowsB, _, _, _, _, _, _, _, _, _, hcnB, hctB,
    hsentB, _, _⟩ :=
    get_all_results_spec srvTwoDay
      { stA with
        start_date := day2
        end_date := day2
        subQueries := stA.subQueries ++ [(day2, day2)] } (by simp [hreqA'])
  have hfp2 : firstPage srvTwoDay
      { stA with
        start_date := day2
        end_date := day2
        subQueries := stA.subQueries ++ [(day2, day2)] } =
      nominalPageS 1500 1000 [⟨"ga:x", GAType.STRING⟩] 1 := by
    simp only [firstPage, hreqA']
    rfl
  have hplan2 : dayPlan srvTwoDay
      { stA with
        start_date := day2
        end_date := day2
        subQueries := stA.subQueries ++ [(day2, day2)] } = [1, 1001] := by
    simp only [dayPlan]
    rw [hfp2]
    have hp : ({ stA with
        start_date := day2
        end_date := day2
        subQueries := stA.subQueries ++ [(day2, day2)] } : GAState).pages =
        stA.pages := rfl
    rw [hp, hpgA']
    decide
  have hl2a : (nominalPageS 1500 1000 [⟨"ga:x", GAType.STRING⟩] 1).rows.length
      = 1000 := by decide
  have hl2b : (srvTwoDay day2 day2 1001 (some 1000)).rows.length = 500 := by
    decide
  have hlen2 : rows2.length = 1500 := by
    rw [hrowsB, hfp2, hplan2]
    simp only [List.drop_succ_cons, List.drop_zero, List.map_cons,
      List.map_nil, List.flatten_cons, List.flatten_nil, List.append_nil,
      List.length_append, hreqA']
    rw [hl2a, hl2b]
  have hsent2 : stB.sent.length = 3 := by
    rw [hsentB, hplan2]
    have hs : ({ stA with
        start_date := day2
        end_date := day2
        subQueries := stA.subQueries ++ [(day2, day2)] } : GAState).sent =
        stA.sent := rfl
    rw [hs, hsent1]
    decide
  have hloop : batchLoop srvTwoDay [day1, day2] []
      (initState (some 1000) day1 day2) = .ok (([] ++ rows1) ++ rows2, stB) := by
    simp only [batchLoop, hrunA, hrunB]
  have hdf : (([] ++ rows1) ++ rows2).length = 1900 := by
    simp [hlen1, hlen2]
  have hct' : stB.column_types = [GAType.STRING] := by
    rw [hctB, hfp2]
    decide
  have hcn' : stB.column_names = ["x"] := by
    rw [hcnB, hfp2]
    decide
  have htr : transform_results [GAType.STRING] ["x"] (([] ++ rows1) ++ rows2) =
      .ok [(colCells (([] ++ rows1) ++ rows2) 0).map PdValue.s] := by
    simp [transform_results, transFrom, conversions, astypeColumn_object]
  have hbg : batch_get srvTwoDay (some 1000) day1 day2 false =
      { rawRows := ([] ++ rows1) ++ rows2
        err := none
        typed := some [(colCells (([] ++ rows1) ++ rows2) 0).map PdValue.s]
        transformCalls := 1
        saved := false
        st := stB } := by
    simp only [batch_get, hdates, hloop]
    rw [if_pos (by rw [hdf]; norm_num), hct', hcn', htr]
  refine ⟨by decide, by decide, ?_, ?_, ?_⟩
  · rw [hbg]
    exact hdf
  · rw [hbg]
    exact hsent2
  · rw [hbg]

/-- Day-keyed service for C9: day 1 plans `[1, 3]` (5 rows, pages of 2);
day 2 reports `itemsPerPage = totalResults = 4`, the case in which the
planner state is not reassigned. -/
def srvStale : ServerFn Nat := fun sd _ si _ =>
  if sd = day1 then nominalPage 5 2 [] si
  else nominalPage 4 4 [] si

/-- Object state after processing day 1, its window set to day 1 exactly as
the `batch_get` loop does. -/
def afterDay1 : GAState :=
  match get_all_results srvStale (initState (some 1000) day1 day2) with
  | .ok (_, st) => st
  | .error _ => initState (some 1000) day1 day2

/-- C9: refuted.  `self.pages` crosses the day boundary: after day 1 planned
`[1, 3]`, day 2 (whose own metadata gives the empty continuation plan) still
uses `[1, 3]`, fetches a stale page, and returns 6 rows; the same day 2
processed from a fresh object returns 4 rows.  Day 2's processing therefore
depends on day 1's leftover state, not only on its own first-page
metadata. -/
theorem C9_pages_cross_day_boundary :
    afterDay1.pages = [1, 3] ∧
    pagesOf (get_all_results srvStale
      { afterDay1 with start_date := day2, end_date := day2 }) =
      some [1, 3] ∧
    rowsLenOf (get_all_results srvStale
      { afterDay1 with start_date := day2, end_date := day2 }) = some 6 ∧
    rowsLenOf (get_all_results srvStale (initState (some 1000) day2 day2)) =
      some 4 ∧
    pagesUpdate [] 4 4 = [] :=
  ⟨by decide, by decide, by decide, by decide, by decide⟩



/-- A failed column conversion reports an offending cell value drawn from
the column (and nothing else), and that value indeed fails to parse under
the target dtype. -/
theorem astypeColumn_err (t : PdType) (name : String) :
    ∀ (cells : List String) (e : PyErr),
      astypeColumn t name cells = .error e →
      ∃ v, e = .typeError v ∧ v ∈ cells ∧ astypeCell t v = none := by
  intro cells
  induction cells with
  | nil =>
    intro e h
    simp [astypeColumn] at h
  | cons c cs ih =>
    intro e h
    cases hc : astypeCell t c with
    | none =>
      simp only [astypeColumn, hc] at h
      cases h
      exact ⟨c, rfl, by simp, hc⟩
    | some v =>
      simp only [astypeColumn, hc] at h
      cases hrec : astypeColumn t name cs with
      | error e2 =>
        rw [hrec] at h
        obtain ⟨w, hw1, hw2, hw3⟩ := ih e2 hrec
        cases h
        exact ⟨w, hw1, by simp [hw2], hw3⟩
      | ok vs =>
        rw [hrec] at h
        cases h

/-- A successful column conversion parsed every cell: nothing was silently
replaced. -/
theorem astypeColumn_ok (t : PdType) (name : String) :
    ∀ (cells : List String) (out : List PdValue),
      astypeColumn t name cells = .ok out →
      ∀ v ∈ cells, astypeCell t v ≠ none := by
  intro cells
  induction cells with
  | nil =>
    intro out h v hv
    simp at hv
  | cons c cs ih =>
    intro out h v hv
    cases hc : astypeCell t c with
    | none =>
      simp only [astypeColumn, hc] at h
      cases h
    | some w =>
      simp only [astypeColumn, hc] at h
      cases hrec : astypeColumn t name cs with
      | error e =>
        rw [hrec] at h
        cases h
      | ok vs =>
        rcases List.mem_cons.mp hv with rfl | hv2
        · rw [hc]; simp
        · exact ih vs hrec v hv2

/-- A failure of the column loop carries an offending value only, but that
value is a cell of a column at some position of the column-name list that
does not parse under the dtype assigned to the declared type at the same
position. -/
theorem transFrom_err (types : List GAType) (df : List (List String)) :
    ∀ (names : List String) (j : Nat) (e : PyErr),
      transFrom types df j names = .error e →
      ∃ i c v, names[i]? = some c ∧ e = .typeError v ∧
        v ∈ colCells df (j + i) ∧
        astypeCell (conversions (types.getD (j + i) .STRING)) v = none := by
  intro names
  induction names with
  | nil =>
    intro j e h
    simp [transFrom] at h
  | cons n ns ih =>
    intro j e h
    cases hcol : astypeColumn (conversions (types.getD j .STRING)) n
        (colCells df j) with
    | error e2 =>
      simp only [transFrom, hcol] at h
      cases h
      obtain ⟨v, hv1, hv2, hv3⟩ := astypeColumn_err _ _ _ _ hcol
      exact ⟨0, n, v, by simp, hv1, by simpa using hv2, by simpa using hv3⟩
    | ok col =>
      simp only [transFrom, hcol] at h
      cases hrec : transFrom types df (j + 1) ns with
      | error e2 =>
        rw [hrec] at h
        obtain ⟨i, c, v, h1, h2, h3, h4⟩ := ih (j + 1) e2 hrec
        cases h
        refine ⟨i + 1, c, v, by simpa using h1, h2, ?_, ?_⟩
        · rw [show j + (i + 1) = j + 1 + i from by omega]
          exact h3
        · rw [show j + (i + 1) = j + 1 + i from by omega]
          exact h4
      | ok cols =>
        rw [hrec] at h
        cases h

/-- When the column loop succeeds, every cell of every listed column parsed
under the dtype assigned to its column's declared type. -/
theorem transFrom_ok (types : List GAType) (df : List (List String)) :
    ∀ (names : List String) (j : Nat) (out : List (List PdValue)),
      transFrom types df j names = .ok out →
      ∀ i c, names[i]? = some c →
        ∀ v ∈ colCells df (j + i),
          astypeCell (conversions (types.getD (j + i) .STRING)) v ≠ none := by
  intro names
  induction names with
  | nil =>
    intro j out h i c hic
    simp at hic
  | cons n ns ih =>
    intro j out h i c hic
    cases hcol : astypeColumn (conversions (types.getD j .STRING)) n
        (colCells df j) with
    | error e2 =>
      simp only [transFrom, hcol] at h
      cases h
    | ok col =>
      simp only [transFrom, hcol] at h
      cases hrec : transFrom types df (j + 1) ns with
      | error e2 =>
        rw [hrec] at h
        cases h
      | ok cols =>
        cases i with
        | zero =>
          simp at hic
          subst hic
          intro v hv
          rw [Nat.add_zero] at hv ⊢
          exact astypeColumn_ok (conversions (types.getD j .STRING)) n
            (colCells df j) col hcol v hv
        | succ i2 =>
          simp at hic
          intro v hv
          rw [show j + (i2 + 1) = j + 1 + i2 from by omega] at hv ⊢
          exact ih (j + 1) cols hrec i2 c hic v hv


/-- A reporting service with empty string-row pages, used where only the
driver's bookkeeping matters. -/
def constServerS : ServerFn (List String) := fun _ _ _ _ =>
  { rows := [], itemsPerPage := 0, totalResults := 0,
    containsSampledData := false, sampleSize := 0, sampleSpace := 1,
    columnHeaders := [] }

/-- C5: `batch_get` expands `[first_date, last_date]` into the inclusive
ascending sequence of calendar days — consecutive entries are calendar
successors, computed with the actual month lengths and leap-year rule — and
issues exactly one daily sub-query per day whose window has
`start_date = end_date = ` that day. -/
theorem C5_date_range_expansion (server : ServerFn (List String))
    (req : Option Int) (f l : PyDate) (of : Bool)
    (hf : ValidDate f) (hl : ValidDate l) (hle : toOrd f ≤ toOrd l)
    (hreq : ¬((req.getD 1000 : Int) < 0)) :
    (batchDates f l).length = toOrd l - toOrd f + 1 ∧
    (batchDates f l).head? = some f ∧
    (batchDates f l).getLast? = some l ∧
    (∀ i a b, (batchDates f l)[i]? = some a →
      (batchDates f l)[i + 1]? = some b → b = nextDate a ∧ ValidDate a) ∧
    (batch_get server req f l of).st.subQueries =
      (batchDates f l).map (fun d => (d, d)) := by
  obtain ⟨df, st', hrun, _, _, _, hsq, _, _⟩ :=
    batchLoop_spec server (batchDates f l) [] (initState req f l) hreq
  refine ⟨batchDates_length f l hle, batchDates_head f l hle,
    batchDates_getLast f l hf hl hle,
    fun i a b ha hb => batchDates_consecutive f l hf i a b ha hb, ?_⟩
  have hst : (batch_get server req f l of).st = st' := by
    simp only [batch_get, hrun]
    by_cases hd : 0 < df.length
    · rw [if_pos hd]
      cases transform_results st'.column_types st'.column_names df <;> rfl
    · rw [if_neg hd]
  rw [hst, hsq]
  rfl

/-- C5 witness: the leap-year range 2020-02-28 .. 2020-03-01 expands to
exactly the three days 02-28, 02-29, 03-01. -/
theorem C5_date_range_expansion_witness :
    (ValidDate (⟨2020, 2, 28⟩ : PyDate) ∧ ValidDate (⟨2020, 3, 1⟩ : PyDate) ∧
      toOrd (⟨2020, 2, 28⟩ : PyDate) ≤ toOrd (⟨2020, 3, 1⟩ : PyDate) ∧
      ¬(((some 1000 : Option Int).getD 1000 : Int) < 0)) ∧
    ((batchDates ⟨2020, 2, 28⟩ ⟨2020, 3, 1⟩).length =
        toOrd (⟨2020, 3, 1⟩ : PyDate) - toOrd (⟨2020, 2, 28⟩ : PyDate) + 1 ∧
      (batchDates ⟨2020, 2, 28⟩ ⟨2020, 3, 1⟩).head? = some ⟨2020, 2, 28⟩ ∧
      (batchDates ⟨2020, 2, 28⟩ ⟨2020, 3, 1⟩).getLast? = some ⟨2020, 3, 1⟩ ∧
      (∀ i a b, (batchDates ⟨2020, 2, 28⟩ ⟨2020, 3, 1⟩)[i]? = some a →
        (batchDates ⟨2020, 2, 28⟩ ⟨2020, 3, 1⟩)[i + 1]? = some b →
        b = nextDate a ∧ ValidDate a) ∧
      (batch_get constServerS (some 1000) ⟨2020, 2, 28⟩ ⟨2020, 3, 1⟩
        false).st.subQueries =
        (batchDates ⟨2020, 2, 28⟩ ⟨2020, 3, 1⟩).map (fun d => (d, d))) ∧
    batchDates ⟨2020, 2, 28⟩ ⟨2020, 3, 1⟩ =
      [⟨2020, 2, 28⟩, ⟨2020, 2, 29⟩, ⟨2020, 3, 1⟩] :=
  ⟨⟨by decide, by decide, by decide, by decide⟩,
    C5_date_range_expansion constServerS (some 1000) ⟨2020, 2, 28⟩
      ⟨2020, 3, 1⟩ false (by decide) (by decide) (by decide) (by decide),
    by decide⟩

/-- C8: whenever a day's first page carries `containsSampledData = true`, the
run appends the sampling ratio `sampleSize / sampleSpace * 100` to the
warnings; when the flag is false no ratio is computed and the warnings are
unchanged. -/
theorem C8_sampling_ratio (server : ServerFn ρ) (st0 : GAState)
    (hreq : ¬((st0.request_max_results.getD 1000 : Int) < 0)) :
    ∃ rows st', get_all_results server st0 = .ok (rows, st') ∧
      ((firstPage server st0).containsSampledData = true →
        st'.samplingWarnings = st0.samplingWarnings ++
          [(firstPage server st0).sampleSize /
            (firstPage server st0).sampleSpace * 100]) ∧
      ((firstPage server st0).containsSampledData = false →
        st'.samplingWarnings = st0.samplingWarnings) := by
  obtain ⟨rows, st', hrun, _, _, _, _, _, _, _, _, _, _, _, _, _, h1, h2⟩ :=
    get_all_results_spec server st0 hreq
  exact ⟨rows, st', hrun, h1, h2⟩

/-- A service whose pages are sampled with `sampleSize = 500`,
`sampleSpace = 2000`. -/
def srvSampled : ServerFn Nat := fun _ _ _ _ =>
  { rows := [], itemsPerPage := 0, totalResults := 0,
    containsSampledData := true, sampleSize := 500, sampleSpace := 2000,
    columnHeaders := [] }

/-- C8 witness: with `sampleSize = 500` and `sampleSpace = 2000` the first
page is sampled and the computed ratio is exactly 25. -/
theorem C8_sampling_ratio_witness :
    (¬((((initState (some 1000) day1 day1).request_max_results).getD 1000 :
        Int) < 0)) ∧
    (∃ rows st', get_all_results srvSampled (initState (some 1000) day1 day1)
        = .ok (rows, st') ∧
      ((firstPage srvSampled (initState (some 1000) day1
          day1)).containsSampledData = true →
        st'.samplingWarnings =
          (initState (some 1000) day1 day1).samplingWarnings ++
          [(firstPage srvSampled (initState (some 1000) day1 day1)).sampleSize /
            (firstPage srvSampled (initState (some 1000) day1
              day1)).sampleSpace * 100]) ∧
      ((firstPage srvSampled (initState (some 1000) day1
          day1)).containsSampledData = false →
        st'.samplingWarnings =
          (initState (some 1000) day1 day1).samplingWarnings)) ∧
    (firstPage srvSampled (initState (some 1000) day1
      day1)).containsSampledData = true ∧
    (500 : Rat) / 2000 * 100 = 25 :=
  ⟨by decide,
    C8_sampling_ratio srvSampled (initState (some 1000) day1 day1) (by decide),
    by decide, by norm_num⟩

/-- A small well-typed two-row service used by concrete success runs. -/
def srvTiny : ServerFn (List String) := fun _ _ si _ =>
  nominalPageS 2 5 [⟨"ga:v", .INTEGER⟩] si

/-- C10: after a successful `batch_get` run, `first_date` and `last_date`
are unchanged, while `start_date` and `end_date` have both been mutated to
the final day of the range — the per-day window mutation of lines 224-226 is
visible through the object's state after return. -/
theorem C10_window_rests_on_last_day (server : ServerFn (List String))
    (req : Option Int) (f l : PyDate) (of : Bool)
    (hf : ValidDate f) (hl : ValidDate l) (hle : toOrd f ≤ toOrd l)
    (hreq : ¬((req.getD 1000 : Int) < 0))
    (herr : (batch_get server req f l of).err = none) :
    (batch_get server req f l of).st.first_date = f ∧
    (batch_get server req f l of).st.last_date = l ∧
    (batch_get server req f l of).st.start_date = l ∧
    (batch_get server req f l of).st.end_date = l := by
  obtain ⟨df, st', hrun, hfd, hld, _, _, _, hlast⟩ :=
    batchLoop_spec server (batchDates f l) [] (initState req f l) hreq
  obtain ⟨hsd, hed⟩ := hlast l (batchDates_getLast f l hf hl hle)
  have hst : (batch_get server req f l of).st = st' := by
    simp only [batch_get, hrun]
    by_cases hd : 0 < df.length
    · rw [if_pos hd]
      cases transform_results st'.column_types st'.column_names df <;> rfl
    · rw [if_neg hd]
  rw [hst]
  exact ⟨by rw [hfd]; rfl, by rw [hld]; rfl, hsd, hed⟩

/-- C10 witness: a successful two-day run leaves `first_date`/`last_date` at
the range bounds and both window fields on the final day. -/
theorem C10_window_rests_on_last_day_witness :
    (ValidDate day1 ∧ ValidDate day2 ∧ toOrd day1 ≤ toOrd day2 ∧
      ¬(((some 5 : Option Int).getD 1000 : Int) < 0) ∧
      (batch_get srvTiny (some 5) day1 day2 false).err = none) ∧
    ((batch_get srvTiny (some 5) day1 day2 false).st.first_date = day1 ∧
      (batch_get srvTiny (some 5) day1 day2 false).st.last_date = day2 ∧
      (batch_get srvTiny (some 5) day1 day2 false).st.start_date = day2 ∧
      (batch_get srvTiny (some 5) day1 day2 false).st.end_date = day2) :=
  ⟨⟨by decide, by decide, by decide, by decide, by decide⟩,
    C10_window_rests_on_last_day srvTiny (some 5) day1 day2 false (by decide)
      (by decide) (by decide) (by decide) (by decide)⟩


/-- C7 (amended): with a valid request size, the only error `batch_get` can
raise is the type-conversion error; it is raised at the single final
coercion step, which runs exactly once, over the whole accumulated dataset,
only when that dataset is non-empty, and only after every daily sub-query
was issued; the error names the offending value — which is a cell of some
column of the recorded schema that does not parse under that column's
declared type — but the propagated error does not name the column; nothing
is saved in that case; and a successful coercion implies every cell parsed —
no silent coercion to null. -/
theorem C7_coercion_discipline (server : ServerFn (List String))
    (req : Option Int) (f l : PyDate) (of : Bool)
    (hreq : ¬((req.getD 1000 : Int) < 0)) :
    ((batch_get server req f l of).err = none →
      (batch_get server req f l of).transformCalls =
        if (batch_get server req f l of).rawRows.length = 0 then 0 else 1) ∧
    (∀ e, (batch_get server req f l of).err = some e →
      (batch_get server req f l of).transformCalls = 1 ∧
      (batch_get server req f l of).saved = false ∧
      (batch_get server req f l of).st.subQueries =
        (batchDates f l).map (fun d => (d, d)) ∧
      ∃ v, e = .typeError v ∧
        ∃ j c, (batch_get server req f l of).st.column_names[j]? = some c ∧
          v ∈ colCells (batch_get server req f l of).rawRows j ∧
          astypeCell (conversions
            ((batch_get server req f l of).st.column_types.getD j
              GAType.STRING)) v = none) ∧
    ((batch_get server req f l of).err = none →
      (batch_get server req f l of).rawRows ≠ [] →
      ∃ t, (batch_get server req f l of).typed = some t) ∧
    ((batch_get server req f l of).err = none →
      ∀ j c, (batch_get server req f l of).st.column_names[j]? = some c →
        ∀ v ∈ colCells (batch_get server req f l of).rawRows j,
          astypeCell (conversions
            ((batch_get server req f l of).st.column_types.getD j
              GAType.STRING)) v ≠ none) := by
  obtain ⟨df, st', hrun, _, _, _, hsq, _, _⟩ :=
    batchLoop_spec server (batchDates f l) [] (initState req f l) hreq
  have hsq' : st'.subQueries = (batchDates f l).map (fun d => (d, d)) := by
    rw [hsq]
    rfl
  by_cases hd : 0 < df.length
  · cases htr : transform_results st'.column_types st'.column_names df with
    | error e0 =>
      have hbg : batch_get server req f l of =
          { rawRows := df, err := some e0, typed := none, transformCalls := 1,
            saved := false, st := st' } := by
        simp only [batch_get, hrun]
        rw [if_pos hd, htr]
      rw [hbg]
      refine ⟨?_, ?_, ?_, ?_⟩
      · intro h
        have h2 : (some e0 : Option PyErr) = none := h
        cases h2
      · intro e he
        have he2 : (some e0 : Option PyErr) = some e := he
        cases he2
        obtain ⟨i, c, v, h1, h2, h3, h4⟩ :=
          transFrom_err st'.column_types df st'.column_names 0 e0
            (by simpa [transform_results] using htr)
        exact ⟨rfl, rfl, hsq', v, h2, i, c, h1, by simpa using h3,
          by simpa using h4⟩
      · intro h
        have h2 : (some e0 : Option PyErr) = none := h
        cases h2
      · intro h
        have h2 : (some e0 : Option PyErr) = none := h
        cases h2
    | ok t0 =>
      have hbg : batch_get server req f l of =
          { rawRows := df, err := none, typed := some t0, transformCalls := 1,
            saved := of, st := st' } := by
        simp only [batch_get, hrun]
        rw [if_pos hd, htr]
      rw [hbg]
      refine ⟨?_, ?_, ?_, ?_⟩
      · intro _
        show 1 = if df.length = 0 then 0 else 1
        rw [if_neg (by omega)]
      · intro e he
        have he2 : (none : Option PyErr) = some e := he
        cases he2
      · intro _ _
        exact ⟨t0, rfl⟩
      · intro _ j c hjc v hv
        have := transFrom_ok st'.column_types df st'.column_names 0 t0
          (by simpa [transform_results] using htr) j c hjc v
          (by simpa using hv)
        simpa using this
  · have hdf : df = [] := List.length_eq_zero.mp (by omega)
    have hbg : batch_get server req f l of =
        { rawRows := df, err := none, typed := none, transformCalls := 0,
          saved := of, st := st' } := by
      simp only [batch_get, hrun]
      rw [if_neg hd]
    rw [hbg]
    refine ⟨?_, ?_, ?_, ?_⟩
    · intro _
      show 0 = if df.length = 0 then 0 else 1
      simp [hdf]
    · intro e he
      have he2 : (none : Option PyErr) = some e := he
      cases he2
    · intro _ hne
      exact absurd hdf hne
    · intro _ j c hjc v hv
      rw [hdf] at hv
      simp [colCells] at hv

/-- A service whose single row holds a cell that cannot parse as an integer
although the column is declared INTEGER. -/
def srvBadCell : ServerFn (List String) := fun _ _ _ _ =>
  { rows := [["abc"]], itemsPerPage := 1, totalResults := 1,
    containsSampledData := false, sampleSize := 0, sampleSpace := 1,
    columnHeaders := [⟨"ga:users", .INTEGER⟩] }

/-- C7 witness: a one-day run whose INTEGER-declared column holds `"abc"`
raises the type-conversion error naming the value `"abc"`, and writes no
output. -/
theorem C7_coercion_discipline_witness :
    (¬(((some 1000 : Option Int).getD 1000 : Int) < 0)) ∧
    (((batch_get srvBadCell (some 1000) day1 day1 false).err = none →
      (batch_get srvBadCell (some 1000) day1 day1 false).transformCalls =
        if (batch_get srvBadCell (some 1000) day1 day1
          false).rawRows.length = 0 then 0 else 1) ∧
    (∀ e, (batch_get srvBadCell (some 1000) day1 day1 false).err = some e →
      (batch_get srvBadCell (some 1000) day1 day1 false).transformCalls = 1 ∧
      (batch_get srvBadCell (some 1000) day1 day1 false).saved = false ∧
      (batch_get srvBadCell (some 1000) day1 day1 false).st.subQueries =
        (batchDates day1 day1).map (fun d => (d, d)) ∧
      ∃ v, e = .typeError v ∧
        ∃ j c, (batch_get srvBadCell (some 1000) day1 day1
            false).st.column_names[j]? = some c ∧
          v ∈ colCells (batch_get srvBadCell (some 1000) day1 day1
            false).rawRows j ∧
          astypeCell (conversions
            ((batch_get srvBadCell (some 1000) day1 day1
              false).st.column_types.getD j GAType.STRING)) v = none) ∧
    ((batch_get srvBadCell (some 1000) day1 day1 false).err = none →
      (batch_get srvBadCell (some 1000) day1 day1 false).rawRows ≠ [] →
      ∃ t, (batch_get srvBadCell (some 1000) day1 day1 false).typed =
        some t) ∧
    ((batch_get srvBadCell (some 1000) day1 day1 false).err = none →
      ∀ j c, (batch_get srvBadCell (some 1000) day1 day1
          false).st.column_names[j]? = some c →
        ∀ v ∈ colCells (batch_get srvBadCell (some 1000) day1 day1
            false).rawRows j,
          astypeCell (conversions
            ((batch_get srvBadCell (some 1000) day1 day1
              false).st.column_types.getD j GAType.STRING)) v ≠ none)) ∧
    (batch_get srvBadCell (some 1000) day1 day1 false).err =
      some (.typeError "abc") ∧
    (batch_get srvBadCell (some 1000) day1 day1 false).saved = false :=
  ⟨by decide,
    C7_coercion_discipline srvBadCell (some 1000) day1 day1 false (by decide),
    by decide, by decide⟩

/-- A service identical to `srvBadCell` except for the column's name. -/
def srvBadCell2 : ServerFn (List String) := fun _ _ _ _ =>
  { rows := [["abc"]], itemsPerPage := 1, totalResults := 1,
    containsSampledData := false, sampleSize := 0, sampleSpace := 1,
    columnHeaders := [⟨"ga:sessions", .INTEGER⟩] }

/-- C7 counterexample to the original claim's "naming the column" conjunct:
two runs whose recorded schemas differ only in the column's name raise the
very same error, so the error that reaches the caller cannot name the
column — it names only the offending value `"abc"`. -/
theorem C7_column_not_named :
    (batch_get srvBadCell (some 1000) day1 day1 false).st.column_names =
      ["users"] ∧
    (batch_get srvBadCell2 (some 1000) day1 day1 false).st.column_names =
      ["sessions"] ∧
    (batch_get srvBadCell (some 1000) day1 day1 false).err =
      some (.typeError "abc") ∧
    (batch_get srvBadCell2 (some 1000) day1 day1 false).err =
      (batch_get srvBadCell (some 1000) day1 day1 false).err :=
  ⟨by decide, by decide, by decide, by decide⟩


end GaApi
